import Mathlib

/-!
Shallow embedding of the tidewave-orchestrator repository.

The repository holds three redundant prototypes of the same HTTP service:
`src/main.py` (a plan → implement → verify → heal graph), `src/current_app.py`
(a direct intent dispatch), and `src/main_langgraph.py` (a second graph
variant).  Each outbound HTTP call is modelled by an `HttpResult` drawn from
an environment record: the environment fixes, for every call the code can
make, whether that call returns a response (status code and body) or raises
an exception.  Exception propagation through Python handlers is modelled
with `Except`: an action returns `Except.error` exactly when the source code
would let an exception escape that function.
-/

namespace Tidewave

/-- Outcome of one outbound HTTP call as seen by the caller: either a
response with a status code and body, or a raised exception carrying a
message. -/
inductive HttpResult where
  | ok (status : Nat) (body : String)
  | exn (msg : String)
deriving DecidableEq, Repr

/-- `True`/`False` outcome of a health probe as `verify_node` in
`src/main.py` computes it: a response counts as passing iff its status is
200, and a raised exception counts as failing. -/
def probeOk : HttpResult → Bool
  | .ok status _ => status == 200
  | .exn _ => false

/-- Whether `kw` is a prefix of `txt` (on character lists). -/
def kwLeads : List Char → List Char → Bool
  | [], _ => true
  | _ :: _, [] => false
  | a :: as, b :: bs => a == b && kwLeads as bs

/-- Whether `kw` occurs as a contiguous substring of `txt` (on character
lists); models Python's `kw in txt` and `re.search` on a literal pattern. -/
def hasSub (kw : List Char) : List Char → Bool
  | [] => kwLeads kw []
  | c :: rest => kwLeads kw (c :: rest) || hasSub kw rest

/-- `containsKw txt kw` : does the string `txt` contain `kw`? -/
def containsKw (txt kw : String) : Bool := hasSub kw.data txt.data

/-- Python `str.lower()`: lowercase every character. -/
def lowerStr (s : String) : String := ⟨s.data.map Char.toLower⟩

/-- Python `str.strip()`: drop whitespace from both ends. -/
def strip (s : String) : String :=
  ⟨((s.data.dropWhile Char.isWhitespace).reverse.dropWhile Char.isWhitespace).reverse⟩

/-- Intent enumeration from `src/main.py` lines 16-19. -/
inductive Intent where
  | deploy
  | health
  | other
deriving DecidableEq, Repr

/-- The `.value` string of each `Intent` member (`src/main.py` 16-19). -/
def Intent.value : Intent → String
  | .deploy => "deploy"
  | .health => "health"
  | .other => "other"

/-- Deploy keywords checked by `plan_node` in `src/main.py` line 32. -/
def deployKws : List String := ["배포", "재배포", "deploy"]

/-- Health keywords checked by `plan_node` in `src/main.py` line 34. -/
def healthKwsMain : List String := ["헬스", "health", "상태", "alive"]

/-- Intent classification performed by `plan_node` in `src/main.py` lines
30-35: lowercase the instruction, return Deploy if any deploy keyword is a
substring, else Health if any health keyword is, else Other. -/
def classifyMain (instruction : String) : Intent :=
  let txt := lowerStr instruction
  if deployKws.any (containsKw txt) then Intent.deploy
  else if healthKwsMain.any (containsKw txt) then Intent.health
  else Intent.other

/-- Intent strings of `src/current_app.py` lines 153-159. -/
inductive AppIntent where
  | deployFrontend
  | healthCheck
  | llmPlan
deriving DecidableEq, Repr

/-- Deploy pattern alternatives of `src/current_app.py` line 156. -/
def deployKwsApp : List String := ["배포", "redeploy", "deploy", "재배포"]

/-- Health pattern alternatives of `src/current_app.py` line 158. -/
def healthKwsApp : List String := ["헬스", "health", "상태", "status", "살아있"]

/-- Intent routing of `src/current_app.py` lines 153-159: case-insensitive
regex search for literal alternatives, deploy checked first. -/
def classifyApp (text : String) : AppIntent :=
  let t := lowerStr text
  if deployKwsApp.any (containsKw t) then AppIntent.deployFrontend
  else if healthKwsApp.any (containsKw t) then AppIntent.healthCheck
  else AppIntent.llmPlan

/-- Deploy pattern alternatives of `src/main_langgraph.py` line 274. -/
def deployKwsLg : List String := ["배포", "deploy", "재배포"]

/-- Health pattern alternatives of `src/main_langgraph.py` line 276. -/
def healthKwsLg : List String := ["헬스", "health", "상태"]

/-- Intent classification of `src/main_langgraph.py` lines 272-277. -/
def classifyLg (prompt : String) : String :=
  let t := lowerStr prompt
  if deployKwsLg.any (containsKw t) then "deploy"
  else if healthKwsLg.any (containsKw t) then "health"
  else "other"

/-!
## The `src/main.py` graph

`OrchestratorState` mirrors the pydantic model of lines 21-27.  The
environment `MainEnv` fixes the configured webhook URLs and health URL and
the outcome of the n-th webhook POST and the n-th health GET.  The `World`
record counts the outbound calls actually performed, so that claims about
"number of webhook calls" and "number of redeploy invocations" can be
stated; `redeployCalls` counts executions of the redeploy action (the
POST loop of `implement_node`).
-/

/-- The graph state of `src/main.py` lines 21-27. -/
structure OrchestratorState where
  instruction : String
  intent : Option Intent := none
  plan : Option String := none
  retries : Nat := 0
  verify_passed : Option Bool := none
  logs : List String := []
deriving DecidableEq, Repr

/-- Counters for the outbound calls a request performs. -/
structure World where
  hookPosts : Nat := 0
  probes : Nat := 0
  redeployCalls : Nat := 0
deriving DecidableEq, Repr

/-- Environment of `src/main.py`: configuration (lines 8-14) plus the
outcome of each outbound call, indexed by the call counters. -/
structure MainEnv where
  vercelHook1 : String := ""
  vercelHook2 : String := ""
  healthUrl : String := ""
  port : Nat := 8000
  hookRes : Nat → HttpResult
  probeRes : Nat → HttpResult

/-- The effective health URL of `verify_node` (`src/main.py` lines 58-60). -/
def mainHealthUrl (env : MainEnv) : String :=
  if env.healthUrl = "" then "http://127.0.0.1:" ++ toString env.port ++ "/health"
  else env.healthUrl

/-- `plan_node` of `src/main.py` lines 29-40. -/
def plan_node (s : OrchestratorState) : OrchestratorState :=
  let intent := classifyMain s.instruction
  let plan := "intent=" ++ intent.value ++ "; steps=[implement→verify→(heal if fail)]"
  { s with intent := some intent, plan := some plan,
           logs := s.logs ++ ["[plan] " ++ plan] }

/-- One iteration of the webhook POST loop of `implement_node`
(`src/main.py` lines 47-54): skip an unconfigured (empty) hook, otherwise
POST it, log the status or the exception, and count the POST. -/
def postHook (env : MainEnv) (idx : Nat) (hook : String)
    (sw : OrchestratorState × World) : OrchestratorState × World :=
  if hook = "" then sw
  else
    let log := match env.hookRes sw.2.hookPosts with
      | .ok status _ =>
          "[implement] vercel_hook_" ++ toString idx ++ " status=" ++ toString status
      | .exn e => "[implement] vercel_hook_" ++ toString idx ++ " error=" ++ e
    ({ sw.1 with logs := sw.1.logs ++ [log] },
     { sw.2 with hookPosts := sw.2.hookPosts + 1 })

/-- `implement_node` of `src/main.py` lines 42-55: skip for the Health
intent; otherwise run the redeploy action, POSTing each configured hook in
order. -/
def implement_node (env : MainEnv) (s : OrchestratorState) (w : World) :
    OrchestratorState × World :=
  if s.intent = some Intent.health then
    ({ s with logs := s.logs ++ ["[implement] skip (health only)"] }, w)
  else
    postHook env 2 env.vercelHook2
      (postHook env 1 env.vercelHook1
        (s, { w with redeployCalls := w.redeployCalls + 1 }))

/-- `verify_node` of `src/main.py` lines 57-70: GET the health URL; on a
response set `verify_passed` to (status == 200), on an exception set it to
`false`. -/
def verify_node (env : MainEnv) (s : OrchestratorState) (w : World) :
    OrchestratorState × World :=
  let url := mainHealthUrl env
  let w2 := { w with probes := w.probes + 1 }
  match env.probeRes w.probes with
  | .ok status _ =>
      ({ s with verify_passed := some (status == 200),
                logs := s.logs ++ ["[verify] GET " ++ url ++ " -> " ++ toString status] },
       w2)
  | .exn e =>
      ({ s with verify_passed := some false,
                logs := s.logs ++ ["[verify] error=" ++ e] }, w2)

/-- `heal_node` of `src/main.py` lines 72-75: increment `retries`, log the
attempt, and re-run `implement_node`. -/
def heal_node (env : MainEnv) (s : OrchestratorState) (w : World) :
    OrchestratorState × World :=
  let n := s.retries + 1
  implement_node env
    { s with retries := n, logs := s.logs ++ ["[heal] attempt=" ++ toString n ++ " → redeploy"] }
    w

/-- The two outcomes of `verify_router`: end the graph, or go to heal. -/
inductive Route where
  | stop
  | heal
deriving DecidableEq, Repr

/-- `verify_router` of `src/main.py` lines 87-92.  For the Health intent the
graph ends unless `verify_passed` is `False` (`is not False`); otherwise it
ends when `verify_passed` is truthy, and heals only while `retries < 1`. -/
def verify_router (s : OrchestratorState) : Route :=
  if s.intent = some Intent.health then
    if s.verify_passed = some false then Route.heal else Route.stop
  else if s.verify_passed = some true then Route.stop
  else if s.retries < 1 then Route.heal else Route.stop

/-- Result of running the graph: a terminal state, or the state and world at
the point where the LangGraph recursion limit aborts the run (the framework
then raises `GraphRecursionError`). -/
inductive RunResult where
  | done (s : OrchestratorState) (w : World)
  | recursionError (s : OrchestratorState) (w : World)
deriving Repr

/-- The state carried by a `RunResult`. -/
def RunResult.state : RunResult → OrchestratorState
  | .done s _ => s
  | .recursionError s _ => s

/-- The world carried by a `RunResult`. -/
def RunResult.world : RunResult → World
  | .done _ w => w
  | .recursionError _ w => w

/-- Whether the graph reached END rather than the recursion limit. -/
def RunResult.isDone : RunResult → Bool
  | .done _ _ => true
  | .recursionError _ _ => false

/-- The `verify → (heal → verify)*` loop wired by `src/main.py` lines
85-95: run `verify_node`, consult `verify_router`, either end or run
`heal_node` and repeat.  `fuel` bounds the number of verify executions,
modelling the framework's recursion limit; exhausting it is the
`GraphRecursionError` outcome. -/
def runVerifyLoop (env : MainEnv) : Nat → OrchestratorState → World → RunResult
  | 0, s, w => .recursionError s w
  | fuel + 1, s, w =>
      let sw := verify_node env s w
      match verify_router sw.1 with
      | .stop => .done sw.1 sw.2
      | .heal =>
          let sw2 := heal_node env sw.1 sw.2
          runVerifyLoop env fuel sw2.1 sw2.2

/-- The compiled graph of `src/main.py` lines 77-97 applied to an initial
state: START → plan → implement → verify, then the verify/heal loop. -/
def runGraph (env : MainEnv) (instruction : String) (fuel : Nat) : RunResult :=
  let s1 := plan_node { instruction := instruction }
  let sw := implement_node env s1 {}
  runVerifyLoop env fuel sw.1 sw.2

/-- An HTTP-level failure escaping a request handler: an
`HTTPException(status, detail)` deliberately raised by the handler, or an
unhandled exception (a 500-level fault). -/
inductive Failure where
  | httpError (status : Nat) (detail : String)
  | fault (msg : String)
deriving DecidableEq, Repr

/-- Response dictionary of `POST /orchestrate` in `src/main.py` lines
112-118. -/
structure MainResponse where
  instruction : String
  intent : Option String
  plan : Option String
  verify_passed : Option Bool
  retries : Nat
  logs : List String
deriving DecidableEq, Repr

/-- `POST /orchestrate` of `src/main.py` lines 108-119: build the initial
state from the request text (no emptiness check) and run the graph; a
recursion-limit abort surfaces as an unhandled fault. -/
def orchestrate_main (env : MainEnv) (text : String) (fuel : Nat) :
    Except Failure MainResponse × World :=
  match runGraph env text fuel with
  | .done s w =>
      (.ok { instruction := s.instruction, intent := s.intent.map Intent.value,
             plan := s.plan, verify_passed := s.verify_passed,
             retries := s.retries, logs := s.logs }, w)
  | .recursionError _ w => (.error (.fault "GraphRecursionError"), w)

/-- Whether an `/orchestrate` outcome is a normal (non-error) response. -/
def respOk : Except Failure MainResponse → Bool
  | .ok _ => true
  | .error _ => false

/-!
## The `src/current_app.py` service
-/

/-- Result entry for one webhook target: its status code, or the message of
the exception caught for that target. -/
inductive HookOutcome where
  | status (code : Nat)
  | failed (msg : String)
deriving DecidableEq, Repr

/-- Result dictionary of `call_health` (`src/current_app.py` lines 100-108
and `src/main_langgraph.py` lines 123-136; the two are identical in the
modelled respects). -/
structure HealthResult where
  ok : Bool
  status : Option Nat := none
  body : Option String := none
  reason : Option String := none
  err : Option String := none
deriving DecidableEq, Repr

/-- Result dictionary of `call_anthropic`; `raw` holds the decoded payload
(key `raw` in `src/current_app.py`, `data` in `src/main_langgraph.py`). -/
structure LlmResult where
  ok : Bool
  status : Option Nat := none
  model : Option String := none
  reason : Option String := none
  raw : Option String := none
deriving DecidableEq, Repr

/-- Model selection of `call_anthropic` (`src/current_app.py` line 65,
`src/main_langgraph.py` lines 81-85): the larger model iff the `critical`
argument is set or the prompt length exceeds `LLM_PROMOTION_THRESHOLD`. -/
def chooseModel (critical : Bool) (promptLen threshold : Nat) : String :=
  if critical = true ∨ threshold < promptLen then "claude-3-5-sonnet-20240620"
  else "claude-3-5-haiku-20240307"

/-- The `try: data = r.json() except: fallback` step of `call_anthropic`:
the decoded JSON when parsing succeeds, else a record of status and text. -/
def jsonOrFallback (jsonParse : String → Option String) (status : Nat) (body : String) :
    String :=
  match jsonParse body with
  | some j => j
  | none => "status_code=" ++ toString status ++ "; text=" ++ body

/-- `call_anthropic` of `src/current_app.py` lines 62-87 (the copy in
`src/main_langgraph.py` lines 74-107 is identical in the modelled
respects).  Without an API key it returns a structured "not configured"
result.  Otherwise it chooses the model and POSTs; the `try` block covers
only `r.json()`, so an exception raised by the POST itself propagates out
of the function (`Except.error`). -/
def call_anthropic (key : Bool) (threshold : Nat) (jsonParse : String → Option String)
    (prompt : String) (critical : Bool) (post : HttpResult) : Except String LlmResult :=
  if key = false then
    .ok { ok := false, reason := some "missing_ANTHROPIC_API_KEY" }
  else
    let model := chooseModel critical prompt.length threshold
    match post with
    | .exn e => .error e
    | .ok status body =>
        .ok { ok := (status == 200 || status == 201), status := some status,
              model := some model,
              raw := some (jsonOrFallback jsonParse status body) }

/-- `call_vercel_hooks` of `src/current_app.py` lines 89-98: POST each
configured hook in order, collecting a per-target status or caught-error
entry; the per-target `try/except` means no exception escapes. -/
def call_vercel_hooks : List String → (Nat → HttpResult) → Nat →
    List (String × HookOutcome)
  | [], _, _ => []
  | url :: rest, res, i =>
      (url, match res i with
            | .ok code _ => HookOutcome.status code
            | .exn e => HookOutcome.failed e) :: call_vercel_hooks rest res (i + 1)

/-- `call_health` of `src/current_app.py` lines 100-108 (and
`src/main_langgraph.py` lines 123-136): a structured "not configured"
result when `API_HEALTH` is unset, otherwise the probe outcome with the
catch-all turning an exception into a failed result. -/
def call_health (apiHealth : String) (r : HttpResult) : HealthResult :=
  if apiHealth = "" then { ok := false, reason := some "missing_API_HEALTH" }
  else
    match r with
    | .ok status body =>
        { ok := status == 200, status := some status, body := some (body.take 400) }
    | .exn e => { ok := false, err := some e }

/-- `log_supabase` of `src/current_app.py` lines 41-60: return early when
Supabase is not configured; the whole POST sits inside
`try: ... except Exception: pass`, so every failure is swallowed. -/
def log_supabase_current (configured : Bool) (r : HttpResult) : Except String Unit :=
  if configured = false then .ok ()
  else
    match r with
    | .ok _ _ => .ok ()
    | .exn _ => .ok ()

/-- `log_supabase` of `src/main_langgraph.py` lines 139-153: return early
when Supabase is not configured; the POST has no `try/except`, so a raised
exception propagates to the caller. -/
def log_supabase_lg (configured : Bool) (r : HttpResult) : Except String Unit :=
  if configured = false then .ok ()
  else
    match r with
    | .ok _ _ => .ok ()
    | .exn e => .error e

/-- Environment of `src/current_app.py`: configuration (lines 25-33) plus
the outcome of each outbound call the handler can make. -/
structure AppEnv where
  anthropicKey : Bool
  promotionThreshold : Nat
  hooks : List String
  apiHealth : String
  supabaseConfigured : Bool
  jsonParse : String → Option String
  hookRes : Nat → HttpResult
  healthRes : HttpResult
  llmRes : HttpResult
  logRes : HttpResult

/-- Request body `OrchestrateIn` of `src/current_app.py` lines 35-39
(`critical` already coerced through `bool(...)`). -/
structure OrchestrateInBody where
  text : String
  user : Option String := none
  critical : Bool := false

/-- Counters for the downstream calls a `current_app` request performs. -/
structure AppCalls where
  hookPosts : Nat := 0
  healthGets : Nat := 0
  llmCalls : Nat := 0
  logPosts : Nat := 0
deriving DecidableEq, Repr

/-- One entry of the `steps` list in the `/orchestrate` response of
`src/current_app.py`. -/
inductive StepRec where
  | deploy (results : List (String × HookOutcome))
  | health (h : HealthResult)
  | llm (l : LlmResult)
deriving DecidableEq, Repr

/-- The `result` object of the `/orchestrate` response of
`src/current_app.py` lines 161-178. -/
structure OrchResponse where
  ok : Bool
  intent : String
  steps : List StepRec
deriving DecidableEq, Repr

/-- Number of HTTP GETs `call_health` performs (0 when unconfigured). -/
def healthCallCount (apiHealth : String) : Nat := if apiHealth = "" then 0 else 1

/-- Number of HTTP POSTs `log_supabase` performs (0 when unconfigured). -/
def logCallCount (configured : Bool) : Nat := if configured then 1 else 0

/-- `POST /orchestrate` of `src/current_app.py` lines 147-178: strip the
text and reject emptiness with a 400; classify; dispatch the intent's
actions; log; respond `ok: true` with the collected steps.  The second
component counts the downstream calls performed. -/
def orchestrate_current (env : AppEnv) (body : OrchestrateInBody) :
    Except Failure OrchResponse × AppCalls :=
  let text := strip body.text
  if text = "" then (.error (.httpError 400 "text is required"), {})
  else
    match classifyApp text with
    | .deployFrontend =>
        let vercels := call_vercel_hooks env.hooks env.hookRes 0
        let hl := call_health env.apiHealth env.healthRes
        let calls : AppCalls :=
          { hookPosts := env.hooks.length, healthGets := healthCallCount env.apiHealth,
            logPosts := logCallCount env.supabaseConfigured }
        match log_supabase_current env.supabaseConfigured env.logRes with
        | .error e => (.error (.fault e), calls)
        | .ok _ =>
            (.ok { ok := true, intent := "deploy_frontend",
                   steps := [.deploy vercels, .health hl] }, calls)
    | .healthCheck =>
        let hl := call_health env.apiHealth env.healthRes
        let calls : AppCalls :=
          { healthGets := healthCallCount env.apiHealth,
            logPosts := logCallCount env.supabaseConfigured }
        match log_supabase_current env.supabaseConfigured env.logRes with
        | .error e => (.error (.fault e), calls)
        | .ok _ =>
            (.ok { ok := true, intent := "health_check", steps := [.health hl] }, calls)
    | .llmPlan =>
        match call_anthropic env.anthropicKey env.promotionThreshold env.jsonParse
            text body.critical env.llmRes with
        | .error e => (.error (.fault e), { llmCalls := 1 })
        | .ok ai =>
            let calls : AppCalls :=
              { llmCalls := if env.anthropicKey then 1 else 0,
                logPosts := logCallCount env.supabaseConfigured }
            match log_supabase_current env.supabaseConfigured env.logRes with
            | .error e => (.error (.fault e), calls)
            | .ok _ =>
                (.ok { ok := true, intent := "llm_plan", steps := [.llm ai] }, calls)

/-!
## The `src/main_langgraph.py` graph

Nodes return the updated state plus the name of the next node; the runner
follows those names from `plan` to termination.  Exception propagation goes
through `Except` as before.
-/

/-- `implement_result` of `src/main_langgraph.py`: the hook-status mapping
for the deploy intent, or `{"skipped": True}`. -/
inductive ImplResult where
  | hooks (results : List (Nat × HookOutcome))
  | skipped
deriving DecidableEq, Repr

/-- `verify_result` of `src/main_langgraph.py`: a health-probe result, or
the wrapped LLM completion for other intents. -/
inductive VerifyResult where
  | health (h : HealthResult)
  | llm (l : LlmResult)
deriving DecidableEq, Repr

/-- `heal_result` of `src/main_langgraph.py` lines 206-213: the redeploy
hook results merged with the second verify. -/
structure HealResult where
  hooks : List (Nat × HookOutcome)
  verify2 : HealthResult
deriving DecidableEq, Repr

/-- `OrchestratorState` of `src/main_langgraph.py` lines 159-169. -/
structure LgState where
  prompt : String
  intent : String
  user : Option String := none
  plan_result : Option LlmResult := none
  implement_result : Option ImplResult := none
  verify_result : Option VerifyResult := none
  heal_result : Option HealResult := none
deriving DecidableEq, Repr

/-- Environment of `src/main_langgraph.py`: configuration (lines 45-59)
plus the outcome of each outbound call, indexed per call site (`llmRes 0`
is the plan-node completion, `llmRes 1` the verify-node completion;
`healthRes 0` the verify probe, `healthRes 1` the heal re-probe). -/
structure LgEnv where
  anthropicKey : Bool
  promotionThreshold : Nat
  hooks : List String
  apiHealth : String
  supabaseConfigured : Bool
  jsonParse : String → Option String
  llmRes : Nat → HttpResult
  hookRes : Nat → HttpResult
  healthRes : Nat → HttpResult
  logRes : HttpResult

/-- `call_vercel_hooks` of `src/main_langgraph.py` lines 110-120: results
keyed `hook1`, `hook2`, ... with caught exceptions recorded as
`error: ...` strings. -/
def call_vercel_hooks_lg : List String → (Nat → HttpResult) → Nat →
    List (Nat × HookOutcome)
  | [], _, _ => []
  | _ :: rest, res, i =>
      (i + 1, match res i with
              | .ok code _ => HookOutcome.status code
              | .exn e => HookOutcome.failed ("error: " ++ e)) ::
        call_vercel_hooks_lg rest res (i + 1)

/-- The prompt `node_plan` sends (`src/main_langgraph.py` line 174). -/
def planPrompt (intent prompt : String) : String :=
  "Plan for intent: " ++ intent ++ "\nInstruction: " ++ prompt

/-- `node_plan` of `src/main_langgraph.py` lines 172-176. -/
def node_plan (env : LgEnv) (s : LgState) : Except String (LgState × String) :=
  match call_anthropic env.anthropicKey env.promotionThreshold env.jsonParse
      (planPrompt s.intent s.prompt) false (env.llmRes 0) with
  | .error e => .error e
  | .ok plan =>
      .ok ({ s with plan_result := some plan },
           if s.intent = "deploy" then "implement" else "verify")

/-- `node_implement` of `src/main_langgraph.py` lines 179-186. -/
def node_implement (env : LgEnv) (s : LgState) : LgState × String :=
  if s.intent = "deploy" then
    ({ s with implement_result :=
          some (.hooks (call_vercel_hooks_lg env.hooks env.hookRes 0)) }, "verify")
  else
    ({ s with implement_result := some .skipped }, "verify")

/-- `node_verify` of `src/main_langgraph.py` lines 189-203.  For other
intents it calls the LLM with `critical := len(prompt) > 200` — the
request's own `critical` flag is not consulted on this path. -/
def node_verify (env : LgEnv) (s : LgState) : Except String (LgState × String) :=
  if s.intent = "deploy" then
    let verify := call_health env.apiHealth (env.healthRes 0)
    .ok ({ s with verify_result := some (.health verify) },
         if verify.ok then "done" else "heal")
  else if s.intent = "health" then
    .ok ({ s with verify_result := some (.health (call_health env.apiHealth (env.healthRes 0))) },
         "done")
  else
    match call_anthropic env.anthropicKey env.promotionThreshold env.jsonParse
        s.prompt (decide (200 < s.prompt.length)) (env.llmRes 1) with
    | .error e => .error e
    | .ok llm => .ok ({ s with verify_result := some (.llm llm) }, "done")

/-- `node_heal` of `src/main_langgraph.py` lines 206-213: redeploy via the
hooks and re-check health. -/
def node_heal (env : LgEnv) (s : LgState) : LgState :=
  let heal := call_vercel_hooks_lg env.hooks env.hookRes env.hooks.length
  let verify2 := call_health env.apiHealth (env.healthRes 1)
  { s with heal_result := some { hooks := heal, verify2 := verify2 } }

/-- The graph runner of `src/main_langgraph.py` (built in lines 221-241):
start at `plan`, follow each node's returned next-node name, and stop at
`done`. -/
def run_lg (env : LgEnv) (s : LgState) : Except String LgState :=
  match node_plan env s with
  | .error e => .error e
  | .ok (s1, next1) =>
      let sw :=
        if next1 = "implement" then node_implement env s1
        else (s1, next1)
      match node_verify env sw.1 with
      | .error e => .error e
      | .ok (s3, next3) =>
          if next3 = "heal" then .ok (node_heal env s3) else .ok s3

/-- Request body `NLRequest` of `src/main_langgraph.py` lines 250-253. -/
structure NLRequest where
  prompt : String
  user : Option String := none
  critical : Bool := false

/-- The `/orchestrate` response of `src/main_langgraph.py` lines 292-299. -/
structure LgResponse where
  ok : Bool
  intent : String
  plan : Option LlmResult
  implement : Option ImplResult
  verify : Option VerifyResult
  heal : Option HealResult
deriving DecidableEq, Repr

/-- `POST /orchestrate` of `src/main_langgraph.py` lines 261-299: strip the
prompt, reject emptiness with a 400, classify, run the graph, log to
Supabase, and respond; an exception escaping the graph or the logger
surfaces as an unhandled fault. -/
def orchestrate_lg (env : LgEnv) (req : NLRequest) : Except Failure LgResponse :=
  let prompt := strip req.prompt
  if prompt = "" then .error (.httpError 400 "prompt is required")
  else
    let intent := classifyLg prompt
    match run_lg env { prompt := prompt, intent := intent, user := req.user } with
    | .error e => .error (.fault e)
    | .ok fs =>
        match log_supabase_lg env.supabaseConfigured env.logRes with
        | .error e => .error (.fault e)
        | .ok _ =>
            .ok { ok := true, intent := intent, plan := fs.plan_result,
                  implement := fs.implement_result, verify := fs.verify_result,
                  heal := fs.heal_result }

/-!
## Structural lemmas about the `src/main.py` nodes
-/

theorem verify_node_fst_intent (env : MainEnv) (s : OrchestratorState) (w : World) :
    ((verify_node env s w).1).intent = s.intent := by
  unfold verify_node
  rcases h : env.probeRes w.probes with ⟨st, b⟩ | e <;> simp [h]

theorem verify_node_fst_retries (env : MainEnv) (s : OrchestratorState) (w : World) :
    ((verify_node env s w).1).retries = s.retries := by
  unfold verify_node
  rcases h : env.probeRes w.probes with ⟨st, b⟩ | e <;> simp [h]

theorem verify_node_fst_verify (env : MainEnv) (s : OrchestratorState) (w : World) :
    ((verify_node env s w).1).verify_passed = some (probeOk (env.probeRes w.probes)) := by
  unfold verify_node
  rcases h : env.probeRes w.probes with ⟨st, b⟩ | e <;> simp [h, probeOk]

theorem verify_node_snd (env : MainEnv) (s : OrchestratorState) (w : World) :
    (verify_node env s w).2 = { w with probes := w.probes + 1 } := by
  unfold verify_node
  rcases h : env.probeRes w.probes with ⟨st, b⟩ | e <;> simp [h]

theorem postHook_fst_intent (env : MainEnv) (idx : Nat) (hook : String)
    (sw : OrchestratorState × World) :
    ((postHook env idx hook sw).1).intent = sw.1.intent := by
  by_cases h : hook = "" <;> simp [postHook, h]

theorem postHook_fst_retries (env : MainEnv) (idx : Nat) (hook : String)
    (sw : OrchestratorState × World) :
    ((postHook env idx hook sw).1).retries = sw.1.retries := by
  by_cases h : hook = "" <;> simp [postHook, h]

theorem postHook_snd_probes (env : MainEnv) (idx : Nat) (hook : String)
    (sw : OrchestratorState × World) :
    ((postHook env idx hook sw).2).probes = sw.2.probes := by
  by_cases h : hook = "" <;> simp [postHook, h]

theorem postHook_snd_redeploy (env : MainEnv) (idx : Nat) (hook : String)
    (sw : OrchestratorState × World) :
    ((postHook env idx hook sw).2).redeployCalls = sw.2.redeployCalls := by
  by_cases h : hook = "" <;> simp [postHook, h]

theorem implement_node_fst_intent (env : MainEnv) (s : OrchestratorState) (w : World) :
    ((implement_node env s w).1).intent = s.intent := by
  unfold implement_node
  by_cases h : s.intent = some Intent.health <;>
    simp [h, postHook_fst_intent]

theorem implement_node_fst_retries (env : MainEnv) (s : OrchestratorState) (w : World) :
    ((implement_node env s w).1).retries = s.retries := by
  unfold implement_node
  by_cases h : s.intent = some Intent.health <;>
    simp [h, postHook_fst_retries]

theorem implement_node_snd_probes (env : MainEnv) (s : OrchestratorState) (w : World) :
    ((implement_node env s w).2).probes = w.probes := by
  unfold implement_node
  by_cases h : s.intent = some Intent.health <;>
    simp [h, postHook_snd_probes]

theorem implement_node_health (env : MainEnv) (s : OrchestratorState) (w : World)
    (h : s.intent = some Intent.health) :
    (implement_node env s w).2 = w := by
  simp [implement_node, h]

theorem implement_node_snd_redeploy (env : MainEnv) (s : OrchestratorState) (w : World)
    (h : s.intent ≠ some Intent.health) :
    ((implement_node env s w).2).redeployCalls = w.redeployCalls + 1 := by
  simp [implement_node, h, postHook_snd_redeploy]

theorem heal_node_fst_intent (env : MainEnv) (s : OrchestratorState) (w : World) :
    ((heal_node env s w).1).intent = s.intent := by
  unfold heal_node
  simp [implement_node_fst_intent]

theorem heal_node_fst_retries (env : MainEnv) (s : OrchestratorState) (w : World) :
    ((heal_node env s w).1).retries = s.retries + 1 := by
  unfold heal_node
  simp [implement_node_fst_retries]

theorem heal_node_snd_probes (env : MainEnv) (s : OrchestratorState) (w : World) :
    ((heal_node env s w).2).probes = w.probes := by
  unfold heal_node
  simp [implement_node_snd_probes]

theorem heal_node_health (env : MainEnv) (s : OrchestratorState) (w : World)
    (h : s.intent = some Intent.health) :
    (heal_node env s w).2 = w := by
  unfold heal_node
  exact implement_node_health env _ w h

theorem heal_node_snd_redeploy (env : MainEnv) (s : OrchestratorState) (w : World)
    (h : s.intent ≠ some Intent.health) :
    ((heal_node env s w).2).redeployCalls = w.redeployCalls + 1 := by
  unfold heal_node
  exact implement_node_snd_redeploy env _ w h

theorem verify_router_nonhealth_pass (s : OrchestratorState)
    (hi : s.intent ≠ some Intent.health) (hv : s.verify_passed = some true) :
    verify_router s = Route.stop := by
  simp [verify_router, hi, hv]

theorem verify_router_nonhealth_fail_retry (s : OrchestratorState)
    (hi : s.intent ≠ some Intent.health) (hv : s.verify_passed = some false)
    (hr : s.retries = 0) :
    verify_router s = Route.heal := by
  simp [verify_router, hi, hv, hr]

theorem verify_router_nonhealth_fail_stop (s : OrchestratorState)
    (hi : s.intent ≠ some Intent.health) (hv : s.verify_passed = some false)
    (hr : s.retries = 1) :
    verify_router s = Route.stop := by
  simp [verify_router, hi, hv, hr]

/-- Exact behaviour of the verify/heal loop of `src/main.py` for a
non-Health intent starting at zero retries, given at least two units of
fuel: the loop terminates, and either the first probe passes (no heal), or
it fails and exactly one heal runs, the second probe deciding
`verify_passed`. -/
theorem runVerifyLoop_nonhealth (env : MainEnv) (s : OrchestratorState) (w : World)
    (k : Nat) (hi : s.intent ≠ some Intent.health) (hr : s.retries = 0) :
    ∃ s2 w2, runVerifyLoop env (k + 2) s w = .done s2 w2 ∧
      s2.intent = s.intent ∧
      ((probeOk (env.probeRes w.probes) = true ∧ s2.retries = 0 ∧
          s2.verify_passed = some true ∧ w2.redeployCalls = w.redeployCalls) ∨
       (probeOk (env.probeRes w.probes) = false ∧ s2.retries = 1 ∧
          s2.verify_passed = some (probeOk (env.probeRes (w.probes + 1))) ∧
          w2.redeployCalls = w.redeployCalls + 1)) := by
  have hv1i := verify_node_fst_intent env s w
  have hv1r := verify_node_fst_retries env s w
  have hv1v := verify_node_fst_verify env s w
  have hi1 : ((verify_node env s w).1).intent ≠ some Intent.health := by
    rw [hv1i]; exact hi
  by_cases hb : probeOk (env.probeRes w.probes) = true
  · have hroute : verify_router (verify_node env s w).1 = Route.stop := by
      apply verify_router_nonhealth_pass _ hi1
      rw [hv1v, hb]
    refine ⟨(verify_node env s w).1, (verify_node env s w).2, ?_, hv1i,
      Or.inl ⟨hb, ?_, ?_, ?_⟩⟩
    · simp only [runVerifyLoop]
      rw [hroute]
    · rw [hv1r, hr]
    · rw [hv1v, hb]
    · rw [verify_node_snd]
  · have hbf : probeOk (env.probeRes w.probes) = false := by
      cases h2 : probeOk (env.probeRes w.probes)
      · rfl
      · exact absurd h2 hb
    have hroute : verify_router (verify_node env s w).1 = Route.heal := by
      apply verify_router_nonhealth_fail_retry _ hi1
      · rw [hv1v, hbf]
      · rw [hv1r, hr]
    have hti : (heal_node env (verify_node env s w).1 (verify_node env s w).2).1.intent
        = s.intent := by rw [heal_node_fst_intent, hv1i]
    have htr : (heal_node env (verify_node env s w).1 (verify_node env s w).2).1.retries
        = 1 := by rw [heal_node_fst_retries, hv1r, hr]
    have htp : (heal_node env (verify_node env s w).1 (verify_node env s w).2).2.probes
        = w.probes + 1 := by
      rw [heal_node_snd_probes, verify_node_snd]
    have htrc : (heal_node env (verify_node env s w).1 (verify_node env s w).2).2.redeployCalls
        = w.redeployCalls + 1 := by
      rw [heal_node_snd_redeploy env _ _ (by rw [hv1i]; exact hi), verify_node_snd]
    have hv2v : ((verify_node env
        (heal_node env (verify_node env s w).1 (verify_node env s w).2).1
        (heal_node env (verify_node env s w).1 (verify_node env s w).2).2).1).verify_passed
        = some (probeOk (env.probeRes (w.probes + 1))) := by
      rw [verify_node_fst_verify, htp]
    have hv2r : ((verify_node env
        (heal_node env (verify_node env s w).1 (verify_node env s w).2).1
        (heal_node env (verify_node env s w).1 (verify_node env s w).2).2).1).retries = 1 := by
      rw [verify_node_fst_retries, htr]
    have hv2i : ((verify_node env
        (heal_node env (verify_node env s w).1 (verify_node env s w).2).1
        (heal_node env (verify_node env s w).1 (verify_node env s w).2).2).1).intent
        ≠ some Intent.health := by
      rw [verify_node_fst_intent, hti]; exact hi
    have hroute2 : verify_router (verify_node env
        (heal_node env (verify_node env s w).1 (verify_node env s w).2).1
        (heal_node env (verify_node env s w).1 (verify_node env s w).2).2).1 = Route.stop := by
      by_cases h2 : probeOk (env.probeRes (w.probes + 1)) = true
      · apply verify_router_nonhealth_pass _ hv2i
        rw [hv2v, h2]
      · have h2f : probeOk (env.probeRes (w.probes + 1)) = false := by
          cases hx : probeOk (env.probeRes (w.probes + 1))
          · rfl
          · exact absurd hx h2
        apply verify_router_nonhealth_fail_stop _ hv2i _ hv2r
        rw [hv2v, h2f]
    refine ⟨(verify_node env
        (heal_node env (verify_node env s w).1 (verify_node env s w).2).1
        (heal_node env (verify_node env s w).1 (verify_node env s w).2).2).1,
      (verify_node env
        (heal_node env (verify_node env s w).1 (verify_node env s w).2).1
        (heal_node env (verify_node env s w).1 (verify_node env s w).2).2).2,
      ?_, ?_, Or.inr ⟨hbf, hv2r, hv2v, ?_⟩⟩
    · show runVerifyLoop env (k + 1 + 1) s w = _
      simp only [runVerifyLoop]
      rw [hroute]
      simp only [runVerifyLoop]
      rw [hroute2]
    · rw [verify_node_fst_intent, hti]
    · rw [verify_node_snd]
      exact htrc

/-- Along the verify/heal loop of `src/main.py`, a Health-intent state never
performs a webhook POST and never runs the redeploy action, whatever the
probe outcomes and however long the loop runs. -/
theorem runVerifyLoop_health_world (env : MainEnv) :
    ∀ (fuel : Nat) (s : OrchestratorState) (w : World),
      s.intent = some Intent.health →
      ((runVerifyLoop env fuel s w).world.hookPosts = w.hookPosts ∧
       (runVerifyLoop env fuel s w).world.redeployCalls = w.redeployCalls) := by
  intro fuel
  induction fuel with
  | zero => intro s w _; exact ⟨rfl, rfl⟩
  | succ k ih =>
      intro s w hh
      have hvi : ((verify_node env s w).1).intent = some Intent.health := by
        rw [verify_node_fst_intent]; exact hh
      simp only [runVerifyLoop]
      cases hroute : verify_router (verify_node env s w).1 with
      | stop =>
          simp only [RunResult.world]
          rw [verify_node_snd]
          exact ⟨rfl, rfl⟩
      | heal =>
          have hhi : (heal_node env (verify_node env s w).1 (verify_node env s w).2).1.intent
              = some Intent.health := by rw [heal_node_fst_intent]; exact hvi
          have hhw : (heal_node env (verify_node env s w).1 (verify_node env s w).2).2
              = (verify_node env s w).2 := heal_node_health env _ _ hvi
          obtain ⟨ih1, ih2⟩ := ih _ _ hhi
          constructor
          · rw [ih1, hhw, verify_node_snd]
          · rw [ih2, hhw, verify_node_snd]

/-- `log_supabase` of `src/current_app.py` never lets a failure escape: the
`try/except pass` swallows everything. -/
theorem log_supabase_current_ok (c : Bool) (r : HttpResult) :
    log_supabase_current c r = .ok () := by
  cases r <;> cases c <;> simp [log_supabase_current]

/-- `call_vercel_hooks` of `src/current_app.py` yields exactly one entry per
configured target, whatever each POST does. -/
theorem call_vercel_hooks_length (hooks : List String) (res : Nat → HttpResult) (i : Nat) :
    (call_vercel_hooks hooks res i).length = hooks.length := by
  induction hooks generalizing i with
  | nil => rfl
  | cons hd tl ih => simp [call_vercel_hooks, ih]

/-!
## Concrete environments used by witnesses and counterexamples
-/

/-- A JSON parser that always fails to decode (exercises the fallback). -/
def jsonNone : String → Option String := fun _ => none

/-- `src/main.py` environment: no hooks configured, every outbound call
raises. -/
def cMainEnvDown : MainEnv :=
  { hookRes := fun _ => .exn "down", probeRes := fun _ => .exn "conn refused" }

/-- `src/main.py` environment: one hook configured, every call succeeds. -/
def cMainEnvUp : MainEnv :=
  { vercelHook1 := "https://hook1",
    hookRes := fun _ => .ok 200 "", probeRes := fun _ => .ok 200 "" }

/-- `src/main.py` environment whose health probe always answers 500. -/
def cMainEnvHealthFail : MainEnv :=
  { hookRes := fun _ => .ok 200 "", probeRes := fun _ => .ok 500 "err" }

/-- `src/current_app.py` environment: LLM key present, threshold 120, no
webhooks, health endpoint configured and healthy, Supabase off. -/
def cAppEnv : AppEnv :=
  { anthropicKey := true, promotionThreshold := 120, hooks := [], apiHealth := "http://h",
    supabaseConfigured := false, jsonParse := jsonNone,
    hookRes := fun _ => .ok 200 "", healthRes := .ok 200 "ok",
    llmRes := .ok 200 "resp", logRes := .ok 201 "" }

/-- `cAppEnv` with the LLM POST timing out. -/
def cAppEnvLlmTimeout : AppEnv := { cAppEnv with llmRes := .exn "timed out" }

/-- `src/main_langgraph.py` environment: Supabase configured, every other
call succeeds, the log POST succeeds. -/
def cLgEnvLogOk : LgEnv :=
  { anthropicKey := true, promotionThreshold := 120, hooks := [], apiHealth := "",
    supabaseConfigured := true, jsonParse := jsonNone,
    llmRes := fun _ => .ok 200 "resp", hookRes := fun _ => .ok 200 "",
    healthRes := fun _ => .ok 200 "", logRes := .ok 201 "" }

/-- `cLgEnvLogOk` with the log POST raising. -/
def cLgEnvLogFail : LgEnv := { cLgEnvLogOk with logRes := .exn "connection reset" }

/-- `cLgEnvLogOk` with Supabase off (the logger returns early). -/
def cLgEnvQuiet : LgEnv := { cLgEnvLogOk with supabaseConfigured := false }

/-!
## Claims
-/

/-- Claim C2: intent classification is deterministic (a pure function of
the text), case-insensitive, and first-match-wins in the order
Deploy > HealthCheck > Other: any text whose lowercasing contains a deploy
keyword is classified Deploy by `plan_node` of `src/main.py` and
`deploy_frontend` by `/orchestrate` of `src/current_app.py`, with no
assumption about health keywords the text may also contain. -/
theorem classify_deploy_priority (t kw : String) :
    (kw ∈ deployKws → containsKw (lowerStr t) kw = true →
      classifyMain t = Intent.deploy) ∧
    (kw ∈ deployKwsApp → containsKw (lowerStr t) kw = true →
      classifyApp t = AppIntent.deployFrontend) := by
  constructor
  · intro hm hc
    have hany : deployKws.any (containsKw (lowerStr t)) = true :=
      List.any_eq_true.mpr ⟨kw, hm, hc⟩
    simp [classifyMain, hany]
  · intro hm hc
    have hany : deployKwsApp.any (containsKw (lowerStr t)) = true :=
      List.any_eq_true.mpr ⟨kw, hm, hc⟩
    simp [classifyApp, hany]

/-- Witness for C2 at concrete inputs: a mixed-case text that also contains
a health keyword is still classified Deploy. -/
theorem classify_deploy_priority_witness :
    classifyMain "Please DEPLOY the HEALTH service" = Intent.deploy ∧
    classifyApp "REDEPLOY and check STATUS" = AppIntent.deployFrontend :=
  ⟨(classify_deploy_priority "Please DEPLOY the HEALTH service" "deploy").1
      (by decide) (by decide),
   (classify_deploy_priority "REDEPLOY and check STATUS" "redeploy").2
      (by decide) (by decide)⟩

/-- Claim C10: after every execution of the verify node of `src/main.py`,
the state's `verify_passed` is a defined boolean — every path, including
the one where the probe raises, assigns it, so `verify_router` always
branches on a defined value. -/
theorem verify_node_sets_verify_passed (env : MainEnv) (s : OrchestratorState) (w : World) :
    ∃ b : Bool, ((verify_node env s w).1).verify_passed = some b :=
  ⟨probeOk (env.probeRes w.probes), verify_node_fst_verify env s w⟩

/-- Amended claim C3: `/orchestrate` of `src/current_app.py` rejects an
empty or whitespace-only text with HTTP 400 and performs no downstream
call at all (`src/main.py`, by contrast, has no such check — see the
counterexample). -/
theorem empty_text_rejected_current (env : AppEnv) (body : OrchestrateInBody)
    (h : strip body.text = "") :
    orchestrate_current env body = (.error (.httpError 400 "text is required"), {}) := by
  simp [orchestrate_current, h]

/-- Witness for the amended C3 at a whitespace-only request body. -/
theorem empty_text_rejected_current_witness :
    orchestrate_current cAppEnv { text := "   " } =
      (.error (.httpError 400 "text is required"), {}) :=
  empty_text_rejected_current cAppEnv { text := "   " } (by decide)

/-- Counterexample to C3 as stated: `/orchestrate` of `src/main.py` accepts
the empty instruction, returns a normal response (no 400), and performs
downstream calls (one webhook POST and one health probe here). -/
theorem empty_text_not_rejected_main_counterexample :
    respOk (orchestrate_main cMainEnvUp "" 2).1 = true ∧
    (orchestrate_main cMainEnvUp "" 2).2.hookPosts = 1 ∧
    (orchestrate_main cMainEnvUp "" 2).2.probes = 1 :=
  ⟨rfl, rfl, rfl⟩

/-- Amended claim C5: in `src/current_app.py` every failure of the audit
log call is swallowed and the `/orchestrate` response does not depend on
the log sink's outcome at all (`src/main_langgraph.py`, by contrast, lets a
raising log call escape — see the counterexample). -/
theorem log_failures_swallowed_current (env : AppEnv) (body : OrchestrateInBody)
    (r r2 : HttpResult) :
    orchestrate_current { env with logRes := r } body =
    orchestrate_current { env with logRes := r2 } body := by
  simp [orchestrate_current, log_supabase_current_ok]

/-- Counterexample to C5 as stated: in `src/main_langgraph.py` an exception
from the log POST is not swallowed — the very same request gets a normal
response when the log call succeeds and an unhandled fault when it
raises. -/
theorem log_failure_surfaces_lg_counterexample :
    orchestrate_lg cLgEnvLogFail { prompt := "hello there" } =
      .error (.fault "connection reset") ∧
    orchestrate_lg cLgEnvLogOk { prompt := "hello there" } =
      .ok { ok := true, intent := "other",
            plan := some { ok := true, status := some 200,
                           model := some "claude-3-5-haiku-20240307",
                           raw := some "status_code=200; text=resp" },
            implement := none,
            verify := some (.llm { ok := true, status := some 200,
                                   model := some "claude-3-5-haiku-20240307",
                                   raw := some "status_code=200; text=resp" }),
            heal := none } :=
  ⟨rfl, rfl⟩

/-- Amended claim C6: the webhook and health-probe actions degrade every
failing call to a failed ActionResult (a per-target error entry, resp. an
`ok := false` record), but the LLM action of `call_anthropic` handles only
JSON decoding — an exception from the HTTP POST itself propagates out of
the action. -/
theorem outbound_failure_degrades (url e : String) (hooks : List String)
    (res : Nat → HttpResult) (i threshold : Nat) (jsonParse : String → Option String)
    (prompt : String) (critical : Bool) (hurl : url ≠ "") :
    call_health url (.exn e) = { ok := false, err := some e } ∧
    (call_vercel_hooks hooks res i).length = hooks.length ∧
    call_anthropic true threshold jsonParse prompt critical (.exn e) = .error e := by
  refine ⟨?_, call_vercel_hooks_length hooks res i, ?_⟩
  · simp [call_health, hurl]
  · simp [call_anthropic]

/-- Witness for the amended C6 at concrete inputs. -/
theorem outbound_failure_degrades_witness :
    call_health "http://h" (.exn "timed out") = { ok := false, err := some "timed out" } ∧
    (call_vercel_hooks ["https://hook1"] (fun _ => HttpResult.exn "down") 0).length =
      ["https://hook1"].length ∧
    call_anthropic true 120 jsonNone "hello" false (.exn "timed out") = .error "timed out" :=
  outbound_failure_degrades "http://h" "timed out" ["https://hook1"]
    (fun _ => HttpResult.exn "down") 0 120 jsonNone "hello" false (by decide)

/-- Counterexample to C6 as stated: a timed-out LLM POST in
`src/current_app.py` escapes `call_anthropic` and surfaces from
`/orchestrate` as an unhandled fault rather than as a failed ActionResult
in the response. -/
theorem llm_timeout_fault_counterexample :
    (orchestrate_current cAppEnvLlmTimeout { text := "hello world" }).1 =
      .error (.fault "timed out") := by rfl

/-- Amended claim C1: for every request whose classified intent is Deploy
or Other, and every sequence of probe and webhook outcomes, the graph of
`src/main.py` terminates with `retries ≤ 1` and at most two invocations of
the redeploy action (the initial one plus at most one heal).  The
HealthCheck path carries no such bound — see the counterexample. -/
theorem heal_bounded_nonhealth (env : MainEnv) (instr : String) (k : Nat)
    (hnh : classifyMain instr ≠ Intent.health) :
    ∃ s w, runGraph env instr (k + 2) = .done s w ∧ s.retries ≤ 1 ∧
      w.redeployCalls ≤ 2 := by
  have hplan : (plan_node { instruction := instr } : OrchestratorState).intent
      = some (classifyMain instr) := rfl
  have hi : ((implement_node env (plan_node { instruction := instr }) {}).1).intent
      ≠ some Intent.health := by
    rw [implement_node_fst_intent, hplan]
    intro hcon
    exact hnh (Option.some.inj hcon)
  have hr0 : ((implement_node env (plan_node { instruction := instr }) {}).1).retries
      = 0 := by
    rw [implement_node_fst_retries]
    rfl
  have hrc : ((implement_node env (plan_node { instruction := instr }) {}).2).redeployCalls
      = 1 := by
    rw [implement_node_snd_redeploy env _ _ (by rw [hplan]; intro hcon; exact hnh (Option.some.inj hcon))]
  obtain ⟨s2, w2, heq, _, hcase⟩ :=
    runVerifyLoop_nonhealth env (implement_node env (plan_node { instruction := instr }) {}).1
      (implement_node env (plan_node { instruction := instr }) {}).2 k hi hr0
  refine ⟨s2, w2, by simpa only [runGraph] using heq, ?_, ?_⟩
  · rcases hcase with ⟨_, hret, _, _⟩ | ⟨_, hret, _, _⟩ <;> omega
  · rcases hcase with ⟨_, _, _, hw⟩ | ⟨_, _, _, hw⟩ <;>
      (rw [hw, hrc]; try omega)

/-- Witness for the amended C1: a Deploy request against an environment
whose probes always fail still terminates with at most one heal. -/
theorem heal_bounded_nonhealth_witness :
    ∃ s w, runGraph cMainEnvDown "deploy now" 2 = .done s w ∧ s.retries ≤ 1 ∧
      w.redeployCalls ≤ 2 :=
  heal_bounded_nonhealth cMainEnvDown "deploy now" 0 (by decide)

/-- Counterexample to C1 as stated: on the HealthCheck path the router of
`src/main.py` heals whenever `verify_passed` is `False`, with no retry
bound — with a probe that always answers 500 the loop has already healed
five times (retries = 5 > 1) when the recursion limit aborts the run, so no
terminal outcome with `retries ≤ 1` exists. -/
theorem health_heal_unbounded_counterexample :
    (runGraph cMainEnvHealthFail "health check" 5).isDone = false ∧
    (runGraph cMainEnvHealthFail "health check" 5).state.retries = 5 :=
  ⟨rfl, rfl⟩

/-- Claim C4: dispatching a HealthCheck intent never invokes the redeploy
action: in `src/main.py` the webhook POST count and redeploy-action count
stay zero for every probe sequence and any loop length, and in
`src/current_app.py` the `health_check` branch performs no webhook POST
either. -/
theorem healthcheck_no_redeploy (env : MainEnv) (instr : String) (fuel : Nat)
    (hh : classifyMain instr = Intent.health) :
    (runGraph env instr fuel).world.hookPosts = 0 ∧
    (runGraph env instr fuel).world.redeployCalls = 0 ∧
    ∀ (aenv : AppEnv) (body : OrchestrateInBody),
      classifyApp (strip body.text) = AppIntent.healthCheck →
      (orchestrate_current aenv body).2.hookPosts = 0 := by
  have hplan : (plan_node { instruction := instr } : OrchestratorState).intent
      = some Intent.health := by
    show some (classifyMain instr) = some Intent.health
    rw [hh]
  have hi : ((implement_node env (plan_node { instruction := instr }) {}).1).intent
      = some Intent.health := by
    rw [implement_node_fst_intent, hplan]
  have hw : (implement_node env (plan_node { instruction := instr }) ({} : World)).2
      = {} := implement_node_health env _ _ hplan
  obtain ⟨h1, h2⟩ := runVerifyLoop_health_world env fuel
    (implement_node env (plan_node { instruction := instr }) {}).1
    (implement_node env (plan_node { instruction := instr }) {}).2 hi
  have hwp : ((implement_node env (plan_node { instruction := instr }) ({} : World)).2).hookPosts
      = 0 := by rw [hw]
  have hwr : ((implement_node env (plan_node { instruction := instr }) ({} : World)).2).redeployCalls
      = 0 := by rw [hw]
  rw [hwp] at h1
  rw [hwr] at h2
  refine ⟨by simpa only [runGraph] using h1, by simpa only [runGraph] using h2, ?_⟩
  intro aenv body hcls
  by_cases he : strip body.text = ""
  · simp [orchestrate_current, he]
  · simp [orchestrate_current, he, hcls, log_supabase_current_ok]

/-- Witness for C4 at a concrete health request on both services. -/
theorem healthcheck_no_redeploy_witness :
    (runGraph cMainEnvDown "health check" 7).world.hookPosts = 0 ∧
    (orchestrate_current cAppEnv { text := "health check" }).2.hookPosts = 0 :=
  ⟨(healthcheck_no_redeploy cMainEnvDown "health check" 7 (by decide)).1,
   (healthcheck_no_redeploy cMainEnvDown "health check" 7 (by decide)).2.2 cAppEnv
      { text := "health check" } (by decide)⟩

/-- Claim C8: for a Deploy-classified instruction in `src/main.py`, two
consecutive probe failures end the run with `verify_passed = false` and
`retries = 1` (not higher), and an immediately passing probe ends it with
`verify_passed = true` and `retries = 0`. -/
theorem deploy_verify_retry_counts (env : MainEnv) (instr : String) (k : Nat)
    (hd : classifyMain instr = Intent.deploy) :
    (probeOk (env.probeRes 0) = false → probeOk (env.probeRes 1) = false →
      ∃ s w, runGraph env instr (k + 2) = .done s w ∧
        s.verify_passed = some false ∧ s.retries = 1) ∧
    (probeOk (env.probeRes 0) = true →
      ∃ s w, runGraph env instr (k + 2) = .done s w ∧
        s.verify_passed = some true ∧ s.retries = 0) := by
  have hplan : (plan_node { instruction := instr } : OrchestratorState).intent
      = some (classifyMain instr) := rfl
  have hi : ((implement_node env (plan_node { instruction := instr }) {}).1).intent
      ≠ some Intent.health := by
    rw [implement_node_fst_intent, hplan, hd]
    simp
  have hr0 : ((implement_node env (plan_node { instruction := instr }) {}).1).retries
      = 0 := by
    rw [implement_node_fst_retries]
    rfl
  have hp0 : ((implement_node env (plan_node { instruction := instr }) {}).2).probes
      = 0 := by
    rw [implement_node_snd_probes]
  obtain ⟨s2, w2, heq, _, hcase⟩ :=
    runVerifyLoop_nonhealth env (implement_node env (plan_node { instruction := instr }) {}).1
      (implement_node env (plan_node { instruction := instr }) {}).2 k hi hr0
  rw [hp0] at hcase
  simp only [Nat.zero_add] at hcase
  constructor
  · intro hf0 hf1
    rcases hcase with ⟨hb, _, _, _⟩ | ⟨_, hret, hvp, _⟩
    · rw [hf0] at hb
      cases hb
    · exact ⟨s2, w2, by simpa only [runGraph] using heq, by rw [hvp, hf1], hret⟩
  · intro ht0
    rcases hcase with ⟨_, hret, hvp, _⟩ | ⟨hb, _, _, _⟩
    · exact ⟨s2, w2, by simpa only [runGraph] using heq, hvp, hret⟩
    · rw [ht0] at hb
      cases hb

/-- Witness for C8: with every probe raising, the Deploy run ends failed
after exactly one heal. -/
theorem deploy_verify_retry_counts_witness :
    ∃ s w, runGraph cMainEnvDown "deploy now" 2 = .done s w ∧
      s.verify_passed = some false ∧ s.retries = 1 :=
  (deploy_verify_retry_counts cMainEnvDown "deploy now" 0 (by decide)).1
    (by decide) (by decide)

/-- Amended claim C9: dispatching a Deploy intent in `src/current_app.py`
with no webhook target configured yields one per-target entry for each of
the zero configured targets (so none is an error), the verify step still
runs with the real health outcome, no exception propagates, and the
response has `ok := true` — whatever the health probe and log sink do.  In
`src/main_langgraph.py` the same dispatch is not exception-free — see the
counterexample. -/
theorem deploy_without_hooks_ok (env : AppEnv) (body : OrchestrateInBody)
    (hhk : env.hooks = [])
    (hcls : classifyApp (strip body.text) = AppIntent.deployFrontend)
    (hne : strip body.text ≠ "") :
    (orchestrate_current env body).1 =
      .ok { ok := true, intent := "deploy_frontend",
            steps := [.deploy (call_vercel_hooks env.hooks env.hookRes 0),
                      .health (call_health env.apiHealth env.healthRes)] } ∧
    call_vercel_hooks env.hooks env.hookRes 0 = [] := by
  have hempty : call_vercel_hooks env.hooks env.hookRes 0 = [] := by
    rw [hhk]
    rfl
  constructor
  · simp [orchestrate_current, hne, hcls, log_supabase_current_ok]
  · exact hempty

/-- Witness for C9 at the spec's scenario input. -/
theorem deploy_without_hooks_ok_witness :
    ((orchestrate_current cAppEnv { text := "please redeploy now" }).1 =
      .ok { ok := true, intent := "deploy_frontend",
            steps := [.deploy (call_vercel_hooks cAppEnv.hooks cAppEnv.hookRes 0),
                      .health (call_health cAppEnv.apiHealth cAppEnv.healthRes)] }) ∧
    call_vercel_hooks cAppEnv.hooks cAppEnv.hookRes 0 = [] :=
  deploy_without_hooks_ok cAppEnv { text := "please redeploy now" } rfl
    (by decide) (by decide)

/-- Counterexample to C9 as stated: in `src/main_langgraph.py` a Deploy
dispatch with no webhook target configured is not exception-free — with
the probes and LLM calls succeeding, a raised exception from the unguarded
`log_supabase` POST still escapes `/orchestrate` as an unhandled fault, so
the response is not `ok := true`. -/
theorem deploy_no_hooks_lg_fault_counterexample :
    orchestrate_lg cLgEnvLogFail { prompt := "please redeploy now" } =
      .error (.fault "connection reset") := by rfl

/-- Amended claim C7: in `src/current_app.py` the LLM action escalates to
the larger model exactly when the request's `critical` flag is set or the
instruction length exceeds the configured threshold (in particular,
`critical = false` with length below the threshold selects the small
model).  In `src/main_langgraph.py` the Other path ignores the request's
`critical` flag — see the counterexample. -/
theorem escalation_exactly_critical_or_length (env : AppEnv) (body : OrchestrateInBody)
    (st : Nat) (bd : String)
    (hkey : env.anthropicKey = true)
    (hcls : classifyApp (strip body.text) = AppIntent.llmPlan)
    (hne : strip body.text ≠ "")
    (hpost : env.llmRes = .ok st bd) :
    (orchestrate_current env body).1 =
      .ok { ok := true, intent := "llm_plan",
            steps := [.llm { ok := (st == 200 || st == 201), status := some st,
                             model := some (chooseModel body.critical
                               (strip body.text).length env.promotionThreshold),
                             raw := some (jsonOrFallback env.jsonParse st bd) }] } ∧
    (chooseModel body.critical (strip body.text).length env.promotionThreshold =
        "claude-3-5-sonnet-20240620" ↔
      (body.critical = true ∨ env.promotionThreshold < (strip body.text).length)) := by
  constructor
  · simp [orchestrate_current, hne, hcls, call_anthropic, hkey, hpost,
      log_supabase_current_ok]
  · by_cases hc : body.critical = true ∨ env.promotionThreshold < (strip body.text).length
    · simp [chooseModel, hc]
    · simp [chooseModel, hc]

/-- Witness for the amended C7 at the spec's scenario: `critical = false`,
length 19 < 120, so the small model is selected and escalation is off. -/
theorem escalation_exactly_critical_or_length_witness :
    ((orchestrate_current cAppEnv { text := "what is the weather" }).1 =
      .ok { ok := true, intent := "llm_plan",
            steps := [.llm { ok := true, status := some 200,
                             model := some (chooseModel false
                               (strip "what is the weather").length 120),
                             raw := some (jsonOrFallback jsonNone 200 "resp") }] }) ∧
    (chooseModel false (strip "what is the weather").length 120 =
        "claude-3-5-sonnet-20240620" ↔
      (false = true ∨ 120 < (strip "what is the weather").length)) :=
  escalation_exactly_critical_or_length cAppEnv { text := "what is the weather" }
    200 "resp" rfl (by decide) (by decide) rfl

/-- Counterexample to C7 as stated: in `src/main_langgraph.py` a request
with `critical = true` and a two-character prompt (threshold 120) is served
by the small model on the Other path — `node_verify` passes
`len(prompt) > 200` as the critical argument and drops the request's own
flag. -/
theorem critical_flag_ignored_lg_counterexample :
    orchestrate_lg cLgEnvQuiet { prompt := "hi", critical := true } =
      .ok { ok := true, intent := "other",
            plan := some { ok := true, status := some 200,
                           model := some "claude-3-5-haiku-20240307",
                           raw := some "status_code=200; text=resp" },
            implement := none,
            verify := some (.llm { ok := true, status := some 200,
                                   model := some "claude-3-5-haiku-20240307",
                                   raw := some "status_code=200; text=resp" }),
            heal := none } := by rfl

end Tidewave
